import Mathlib

/-!
Shallow embedding of the schema-profiling / suggestion / aggregation core of the
BI dashboard backend (src/services/data_processor.py, src/services/ai_analyzer.py,
src/models/schemas.py), together with theorems settling the frozen claims.

Modelling conventions:
* Python floats are modelled as exact rationals (`PRat`, a canonical-form
  fraction with a fuel-based gcd so that every operation reduces in the kernel).
  All numeric data in the claims consists of small integers, where Python float
  arithmetic is exact, so no rounding behaviour is lost.
* pandas cells are `Value` (a string or a number).  A `DataFrame` is an ordered
  list of named, dtype-tagged columns.
* `dict` iteration order in Python is insertion order; dictionaries are embedded
  as ordered association lists.
* Exceptions become `Except String`; the catch-all in `get_chart_data` becomes a
  total wrapper producing a `ChartResult`.
-/

namespace BiDash

/-! ## Exact rational numbers standing in for Python floats -/

/-- Fuel-based Euclid so the kernel can evaluate gcds (the library `Nat.gcd`
uses well-founded recursion, which the kernel cannot reduce). -/
def gcdFuel : Nat → Nat → Nat → Nat
  | 0, _, n => n
  | f+1, m, n => if m = 0 then n else gcdFuel f (n % m) m

def gcdF (m n : Nat) : Nat := gcdFuel (m + 1) m n

theorem gcdFuel_eq_gcd : ∀ f m n, m ≤ f → gcdFuel (f + 1) m n = Nat.gcd m n := by
  intro f
  induction f using Nat.strong_induction_on with
  | _ f ih =>
    intro m n hmf
    cases f with
    | zero =>
      interval_cases m
      simp [gcdFuel]
    | succ f' =>
      show gcdFuel (f' + 1 + 1) m n = Nat.gcd m n
      rw [show gcdFuel (f' + 1 + 1) m n = if m = 0 then n else gcdFuel (f' + 1) (n % m) m
            from rfl]
      by_cases hm : m = 0
      · simp [hm]
      · have hpos : 0 < m := Nat.pos_of_ne_zero hm
        have hlt : n % m < m := Nat.mod_lt _ hpos
        have : n % m ≤ f' := by omega
        rw [if_neg hm, ih f' (by omega) (n % m) m this]
        exact (Nat.gcd_rec m n).symm

theorem gcdF_eq_gcd (m n : Nat) : gcdF m n = Nat.gcd m n :=
  gcdFuel_eq_gcd m m n le_rfl

/-- Exact rational in canonical form (positive denominator; operations
normalize).  Stands in for Python `float`. -/
structure PRat where
  num : Int
  den : Nat
  pos : 0 < den

instance : DecidableEq PRat := fun a b =>
  if h : a.num = b.num ∧ a.den = b.den then
    .isTrue (by cases a; cases b; simp_all)
  else
    .isFalse (by intro e; cases e; simp at h)

def PRat.mk' (n : Int) (d : Nat) (hd : 0 < d) : PRat :=
  ⟨n / (gcdF n.natAbs d : Int), d / gcdF n.natAbs d, by
    rw [gcdF_eq_gcd]
    exact Nat.div_pos (Nat.le_of_dvd hd (Nat.gcd_dvd_right _ _))
      (Nat.gcd_pos_of_pos_right _ hd)⟩

def PRat.ofInt (n : Int) : PRat := ⟨n, 1, one_pos⟩

def PRat.add (a b : PRat) : PRat :=
  PRat.mk' (a.num * b.den + b.num * a.den) (a.den * b.den) (Nat.mul_pos a.pos b.pos)

/-- Division by a positive natural number (the only division the code performs:
`mean = sum / count`). -/
def PRat.divNat (a : PRat) (k : Nat) : PRat :=
  if hk : 0 < k then PRat.mk' a.num (a.den * k) (Nat.mul_pos a.pos hk)
  else PRat.ofInt 0

/-- Cross-multiplication order on `PRat`. -/
def PRat.leb (a b : PRat) : Bool := decide (a.num * (b.den : Int) ≤ b.num * (a.den : Int))

/-! ## Strings: kernel-computable lexicographic comparison -/

/-- Lexicographic `≤` on char lists (library `String` comparison is
iterator-based and does not reduce in the kernel). -/
def charListLe : List Char → List Char → Bool
  | [], _ => true
  | _ :: _, [] => false
  | a :: as, b :: bs => if a < b then true else if b < a then false else charListLe as bs

def strLeB (a b : String) : Bool := charListLe a.data b.data

theorem charListLe_total : ∀ a b, charListLe a b = true ∨ charListLe b a = true := by
  intro a
  induction a with
  | nil => intro b; left; rfl
  | cons x xs ih =>
    intro b
    cases b with
    | nil => right; rfl
    | cons y ys =>
      by_cases hxy : x < y
      · left; simp [charListLe, hxy]
      · by_cases hyx : y < x
        · right; simp [charListLe, hyx, hxy]
        · rcases ih ys with h | h
          · left; simp [charListLe, hxy, hyx, h]
          · right; simp [charListLe, hxy, hyx, h]

theorem charListLe_trans :
    ∀ a b c, charListLe a b = true → charListLe b c = true → charListLe a c = true := by
  intro a
  induction a with
  | nil => intro b c _ _; rfl
  | cons x xs ih =>
    intro b c hab hbc
    cases b with
    | nil => simp [charListLe] at hab
    | cons y ys =>
      cases c with
      | nil => simp [charListLe] at hbc
      | cons z zs =>
        simp only [charListLe] at hab hbc ⊢
        by_cases hxy : x < y
        · -- x < y; combine with y ≤ z
          by_cases hyz : y < z
          · have : x < z := lt_trans hxy hyz
            simp [this]
          · by_cases hzy : z < y
            · simp [hyz, hzy] at hbc
            · have hyz' : y = z := le_antisymm (not_lt.mp hzy) (not_lt.mp hyz)
              simp [hyz' ▸ hxy]
        · by_cases hyx : y < x
          · simp [hxy, hyx] at hab
          · have hxy' : x = y := le_antisymm (not_lt.mp hyx) (not_lt.mp hxy)
            subst hxy'
            by_cases hxz : x < z
            · simp [hxz]
            · by_cases hzx : z < x
              · simp [hxz, hzx] at hbc
              · simp only [if_neg hxz, if_neg hzx] at hbc ⊢
                simp only [if_neg hxy, if_neg hyx] at hab
                exact ih _ _ hab hbc

/-! ## Cell values -/

/-- A pandas cell: a string or a number. -/
inductive Value
  | vStr (s : String)
  | vNum (q : PRat)
deriving DecidableEq

/-- Convenience: an integer cell. -/
def Value.int (n : Int) : Value := .vNum (PRat.ofInt n)

/-- Total comparison used for pandas' sorted `groupby` keys: numbers before
strings (heterogeneous keys would raise in pandas; no claim mixes key types),
numbers by value, strings lexicographically. -/
def Value.leb : Value → Value → Bool
  | .vNum a, .vNum b => PRat.leb a b
  | .vNum _, .vStr _ => true
  | .vStr _, .vNum _ => false
  | .vStr a, .vStr b => strLeB a b

def Value.le (a b : Value) : Prop := Value.leb a b = true

instance : DecidableRel Value.le := fun a b => by
  unfold Value.le; infer_instance

theorem pratLeb_trans {a b c : PRat} (hab : PRat.leb a b = true) (hbc : PRat.leb b c = true) :
    PRat.leb a c = true := by
  simp only [PRat.leb, decide_eq_true_eq] at hab hbc ⊢
  have hb : (0 : Int) < b.den := by exact_mod_cast b.pos
  have h1 : a.num * b.den * c.den ≤ b.num * a.den * c.den := by
    have hc : (0 : Int) ≤ c.den := by positivity
    exact mul_le_mul_of_nonneg_right hab hc
  have h2 : b.num * c.den * a.den ≤ c.num * b.den * a.den := by
    have ha : (0 : Int) ≤ a.den := by positivity
    exact mul_le_mul_of_nonneg_right hbc ha
  have key : b.den * (a.num * c.den) ≤ b.den * (c.num * a.den) := by nlinarith
  exact le_of_mul_le_mul_left key hb

instance : IsTrans Value Value.le := by
  constructor
  intro a b c hab hbc
  unfold Value.le Value.leb at *
  cases a <;> cases b <;> cases c <;> simp_all
  · exact charListLe_trans _ _ _ hab hbc
  · exact pratLeb_trans hab hbc

instance : IsTotal Value Value.le := by
  constructor
  intro a b
  unfold Value.le Value.leb
  cases a with
  | vStr s =>
    cases b with
    | vStr t => simpa [strLeB] using charListLe_total s.data t.data
    | vNum r => right; rfl
  | vNum q =>
    cases b with
    | vStr t => left; rfl
    | vNum r =>
      rcases le_total (q.num * (r.den : Int)) (r.num * (q.den : Int)) with h | h
      · left; simpa [PRat.leb] using h
      · right; simpa [PRat.leb] using h

/-! ## Kernel-computable string helpers (Python `startswith` / `endswith` /
`strip` / `in`, which in the library are iterator-based) -/

def isPrefixL : List Char → List Char → Bool
  | [], _ => true
  | _ :: _, [] => false
  | a :: as, b :: bs => a = b && isPrefixL as bs

/-- Python `needle in haystack` (substring containment). -/
def strContains (hay needle : String) : Bool :=
  let rec go : List Char → Bool
    | [] => needle.data.isEmpty
    | l@(_ :: t) => isPrefixL needle.data l || go t
  go hay.data

def strStartsWith (s pre : String) : Bool := isPrefixL pre.data s.data

def strEndsWith (s suf : String) : Bool := isPrefixL suf.data.reverse s.data.reverse

def strDrop (s : String) (n : Nat) : String := ⟨s.data.drop n⟩

def strDropRight (s : String) (n : Nat) : String := ⟨s.data.take (s.data.length - n)⟩

/-- Whitespace set of Python `str.strip()`. -/
def isPyWs (c : Char) : Bool :=
  c = ' ' || c = '\t' || c = '\n' || c = '\r' || c = '\x0b' || c = '\x0c'

/-- Python `str.strip()`. -/
def pyStrip (s : String) : String :=
  ⟨((s.data.dropWhile isPyWs).reverse.dropWhile isPyWs).reverse⟩

/-! ## DataFrames -/

/-- One pandas column: name, dtype string (as produced by `str(dtype)`,
e.g. "int64", "float64", "object"), cells. -/
structure Column where
  name : String
  dtype : String
  values : List Value
deriving DecidableEq

/-- A pandas DataFrame: ordered named columns. -/
structure DataFrame where
  cols : List Column
deriving DecidableEq

/-- `len(df)`: the row count (length of the first column; 0 when there are no
columns). -/
def DataFrame.nRows (df : DataFrame) : Nat :=
  match df.cols with
  | [] => 0
  | c :: _ => c.values.length

def DataFrame.colNames (df : DataFrame) : List String := df.cols.map (·.name)

/-- Column lookup; a missing column raises `KeyError` in pandas. -/
def DataFrame.getCol (df : DataFrame) (name : String) : Except String (List Value) :=
  match df.cols.find? (fun c => c.name == name) with
  | some c => .ok c.values
  | none => .error ("KeyError: " ++ name)

/-- Well-formedness: every column holds exactly `nRows` cells. -/
def DataFrame.WF (df : DataFrame) : Prop := ∀ c ∈ df.cols, c.values.length = df.nRows

instance (df : DataFrame) : Decidable df.WF := by unfold DataFrame.WF; infer_instance

/-- Dtype classification used by `analyze_dataframe_mock`
(`'int' in dtype or 'float' in dtype`); `df.select_dtypes(include=['number'])`
selects the same columns on the dtype strings this model uses. -/
def isNumericDtype (d : String) : Bool := strContains d "int" || strContains d "float"

/-- `'object' in dtype or 'category' in dtype`. -/
def isCategoricalDtype (d : String) : Bool := strContains d "object" || strContains d "category"

def isDatetimeDtype (d : String) : Bool := strContains d "datetime"

def DataFrame.numericCols (df : DataFrame) : List Column :=
  df.cols.filter (fun c => isNumericDtype c.dtype)

/-! ## Cell coercions -/

/-- Python `str(cell)`.  Strings print verbatim and integral numbers print as
integers; non-integral numerics (which no claim stringifies) print as a
fraction. -/
def pyStr : Value → String
  | .vStr s => s
  | .vNum q => if q.den = 1 then toString q.num else toString q.num ++ "/" ++ toString q.den

/-- Python `float(cell)`.  A numeric cell converts exactly; a string cell
raises `ValueError`.  (Python would also parse numeric string literals; no
claim exercises that path, and no dataset in this development stores numbers
as strings.) -/
def pyFloat : Value → Except String PRat
  | .vNum q => .ok q
  | .vStr s => .error ("could not convert string to float: " ++ s)

def Value.isNum : Value → Bool
  | .vNum _ => true
  | _ => false

def Value.isStr : Value → Bool
  | .vStr _ => true
  | _ => false

/-! ## Group reductions (pandas `SeriesGroupBy.sum/mean/count`) -/

def sumP (vs : List Value) : PRat :=
  vs.foldl (fun acc v => match v with | .vNum q => acc.add q | _ => acc) (PRat.ofInt 0)

/-- pandas series sum: numeric cells sum (empty sum is 0); an all-string
series concatenates; mixed content raises. -/
def vSum (vs : List Value) : Except String Value :=
  if vs.all Value.isNum then .ok (.vNum (sumP vs))
  else if vs.all Value.isStr then
    .ok (.vStr (vs.foldl (fun acc v => match v with | .vStr s => acc ++ s | _ => acc) ""))
  else .error "unsupported operand types for sum"

/-- pandas series mean: numeric only. -/
def vMean (vs : List Value) : Except String Value :=
  if vs.all Value.isNum && !vs.isEmpty then .ok (.vNum ((sumP vs).divNat vs.length))
  else .error "could not compute mean"

/-- pandas series count (non-null cell count; null cells are not modelled). -/
def vCount (vs : List Value) : Value := .vNum (PRat.ofInt vs.length)

/-- Distinct values in first-encounter order. -/
def firstSeen (l : List Value) : List Value :=
  l.foldl (fun acc k => if k ∈ acc then acc else acc ++ [k]) []

/-- pandas `groupby` default `sort=True`: group keys ascending. -/
def sortKeys (l : List Value) : List Value := List.insertionSort Value.le l

/-- Cells of `ts` on the rows whose `ks` cell equals `k`. -/
def groupVals (ks ts : List Value) (k : Value) : List Value :=
  (ks.zip ts).filterMap (fun p => if p.1 = k then some p.2 else none)

/-- `df.groupby(gb)[target]` reduced per group by `aggF`: one `(key, reduced)`
pair per distinct key of the `gb` column, keys in ascending sorted order. -/
def groupedAgg (df : DataFrame) (gb target : String)
    (aggF : List Value → Except String Value) :
    Except String (List (Value × Value)) := do
  let ks ← df.getCol gb
  let ts ← df.getCol target
  (sortKeys (firstSeen ks)).mapM (fun k => do
    let v ← aggF (groupVals ks ts k)
    pure (k, v))

/-! ## Chart data (src/services/data_processor.py, get_chart_data) -/

/-- A rendered data point: `{'name': …, 'value': …}` for bar/line/pie,
`{'x': …, 'y': …}` for scatter. -/
inductive Point
  | nv (name : String) (value : PRat)
  | xy (x : PRat) (y : PRat)
deriving DecidableEq

/-- The dictionary `get_chart_data` returns. -/
structure ChartResult where
  data : List Point
  labels : Option (List String)
  error : Option String
deriving DecidableEq

/-- models/schemas.py ChartParameters (all fields optional). -/
structure ChartParams where
  x_axis : Option String := none
  y_axis : Option String := none
  category : Option String := none
  value : Option String := none
  group_by : Option String := none
  aggregate : Option String := none
deriving DecidableEq

/-- Python truthiness of an optional string (`None` and `""` are falsy). -/
def truthy : Option String → Bool
  | some s => !s.data.isEmpty
  | none => false

/-- bar/line aggregate dispatch: sum / mean / count, anything else sums. -/
def barAgg (agg : String) (vs : List Value) : Except String Value :=
  if agg = "sum" then vSum vs
  else if agg = "mean" then vMean vs
  else if agg = "count" then .ok (vCount vs)
  else vSum vs

/-- pie aggregate dispatch: sum / mean, anything else (including count) sums. -/
def pieAgg (agg : String) (vs : List Value) : Except String Value :=
  if agg = "sum" then vSum vs
  else if agg = "mean" then vMean vs
  else vSum vs

/-- The grouped branch shared verbatim by the bar/line and pie cases:
`{'name': str(key), 'value': float(reduced)}` per group plus the stringified
key list as labels. -/
def groupedSeries (df : DataFrame) (gb target : String)
    (aggF : List Value → Except String Value) :
    Except String (List Point × Option (List String)) := do
  let pairs ← groupedAgg df gb target aggF
  let data ← pairs.mapM (fun p => do
    let f ← pyFloat p.2
    pure (Point.nv (pyStr p.1) f))
  pure (data, some (pairs.map (fun p => pyStr p.1)))

/-- `{'name': str(x_cell), 'value': float(y_cell)}` per row. -/
def seriesNV (xs ys : List Value) : Except String (List Point) :=
  (xs.zip ys).mapM (fun p => do
    let v ← pyFloat p.2
    pure (Point.nv (pyStr p.1) v))

/-- `{'x': float(x_cell), 'y': float(y_cell)}` per row. -/
def seriesXY (xs ys : List Value) : Except String (List Point) :=
  (xs.zip ys).mapM (fun p => do
    let x ← pyFloat p.1
    let y ← pyFloat p.2
    pure (Point.xy x y))

/-- The body of `get_chart_data`'s `try` block up to (not including) the
no-data fallback. -/
def chartDispatch (df : DataFrame) (chart_type : String) (p : ChartParams) :
    Except String (List Point × Option (List String)) :=
  let aggregate := p.aggregate.getD "sum"
  if chart_type = "bar" || chart_type = "line" then
    if truthy p.x_axis && truthy p.y_axis then
      if truthy p.group_by then
        groupedSeries df (p.group_by.getD "") (p.y_axis.getD "") (barAgg aggregate)
      else
        let k := min df.nRows 100
        do
          let xs ← df.getCol (p.x_axis.getD "")
          let ys ← df.getCol (p.y_axis.getD "")
          let pts ← seriesNV (xs.take k) (ys.take k)
          pure (pts, some ((xs.take k).map pyStr))
    else .ok ([], none)
  else if chart_type = "pie" then
    if truthy p.category && truthy p.value then
      if truthy p.group_by then
        groupedSeries df (p.group_by.getD "") (p.value.getD "") (pieAgg aggregate)
      else
        groupedSeries df (p.category.getD "") (p.value.getD "") vSum
    else .ok ([], none)
  else if chart_type = "scatter" then
    if truthy p.x_axis && truthy p.y_axis then
      let k := min df.nRows 500
      do
        let xs ← df.getCol (p.x_axis.getD "")
        let ys ← df.getCol (p.y_axis.getD "")
        let pts ← seriesXY (xs.take k) (ys.take k)
        pure (pts, none)
    else .ok ([], none)
  else .ok ([], none)

/-- First 50 rows of a numeric column as `{'name': str(i), 'value': float(cell)}`. -/
def fallbackSeries (vs : List Value) (k : Nat) : Except String (List Point) :=
  ((List.range k).zip (vs.take k)).mapM (fun p => do
    let v ← pyFloat p.2
    pure (Point.nv (toString p.1) v))

/-- Dispatch followed by the no-data fallback (`if not result['data'] and
len(df) > 0`, needing at least two numeric columns). -/
def chartWithFallback (df : DataFrame) (chart_type : String) (p : ChartParams) :
    Except String (List Point × Option (List String)) := do
  let r ← chartDispatch df chart_type p
  if r.1.isEmpty && decide (0 < df.nRows) then
    match df.numericCols with
    | c0 :: _ :: _ =>
      let k := min df.nRows 50
      let pts ← fallbackSeries c0.values k
      pure (pts, some ((List.range k).map toString))
    | _ => pure r
  else pure r

/-- `get_chart_data`: the `try/except` makes the call total; any internal
failure yields `{'data': [], 'error': str(e)}`. -/
def get_chart_data (df : DataFrame) (chart_type : String) (p : ChartParams) : ChartResult :=
  match chartWithFallback df chart_type p with
  | .ok r => ⟨r.1, r.2, none⟩
  | .error e => ⟨[], none, some e⟩

/-! ## Profiling (src/services/data_processor.py, process_file metadata) -/

/-- One column's entry of `df.describe().to_dict()` (for numeric columns:
count/mean and extrema; for object columns: count/unique/top/freq.  Std and
quartiles, which no claim inspects, are not carried). -/
inductive ColStats
  | numericStats (count : Nat) (mean : PRat) (minV maxV : Option PRat)
  | objectStats (count unique : Nat) (top : Option Value) (freq : Nat)
deriving DecidableEq

def pratMin (a b : PRat) : PRat := if PRat.leb a b then a else b

def pratMax (a b : PRat) : PRat := if PRat.leb a b then b else a

def describeNumeric (vs : List Value) : ColStats :=
  let nums := vs.filterMap (fun v => match v with | .vNum q => some q | _ => none)
  .numericStats nums.length ((nums.foldl PRat.add (PRat.ofInt 0)).divNat nums.length)
    (match nums with | [] => none | x :: xs => some (xs.foldl pratMin x))
    (match nums with | [] => none | x :: xs => some (xs.foldl pratMax x))

def countOcc (vs : List Value) (k : Value) : Nat := (vs.filter (fun v => v == k)).length

/-- Most frequent value with its count (pandas `top`/`freq`). -/
def modeOf (vs : List Value) : Option (Value × Nat) :=
  (firstSeen vs).foldl (fun best k =>
    let c := countOcc vs k
    match best with
    | none => some (k, c)
    | some bc => if c > bc.2 then some (k, c) else some bc) none

def describeObject (vs : List Value) : ColStats :=
  .objectStats vs.length (firstSeen vs).length ((modeOf vs).map Prod.fst)
    (((modeOf vs).map Prod.snd).getD 0)

/-- pandas `df.empty`: some axis has length 0. -/
def dfEmpty (df : DataFrame) : Bool := df.nRows = 0 || df.cols.length = 0

/-- `df.describe().to_dict() if not df.empty else {}`: on a non-empty frame
pandas describes the numeric columns if any exist, otherwise it describes all
(object) columns. -/
def summaryStats (df : DataFrame) : List (String × ColStats) :=
  if dfEmpty df then []
  else
    match df.numericCols with
    | [] => df.cols.map (fun c => (c.name, describeObject c.values))
    | ncs => ncs.map (fun c => (c.name, describeNumeric c.values))

/-- The metadata dictionary `process_file` derives from the parsed frame
(`memory_usage`, a platform quantity, is not carried). -/
structure Metadata where
  columns : List String
  dtypes : List (String × String)
  shape : Nat × Nat
  summary_stats : List (String × ColStats)
  null_counts : List (String × Nat)
  numeric_columns : List String
  categorical_columns : List String
  datetime_columns : List String
deriving DecidableEq

def process_file_metadata (df : DataFrame) : Metadata :=
  { columns := df.colNames
    dtypes := df.cols.map (fun c => (c.name, c.dtype))
    shape := (df.nRows, df.cols.length)
    summary_stats := summaryStats df
    null_counts := df.cols.map (fun c => (c.name, 0))
    numeric_columns := df.numericCols.map (·.name)
    categorical_columns := (df.cols.filter (fun c => isCategoricalDtype c.dtype)).map (·.name)
    datetime_columns := (df.cols.filter (fun c => isDatetimeDtype c.dtype)).map (·.name) }

/-! ## Suggestion engine (src/services/ai_analyzer.py) -/

/-- The `schema` dictionary handed to the analyzers (`columns`, `dtypes`;
`shape` is only interpolated into the model prompt and carries no behaviour). -/
structure Schema where
  columns : List String
  dtypes : List (String × String)
deriving DecidableEq

/-- The `summary` dictionary handed to the analyzers (descriptive statistics;
never read by the rule-based generator). -/
abbrev Summary := List (String × ColStats)

/-- models/schemas.py ChartSuggestion. -/
structure Suggestion where
  title : String
  chart_type : String
  parameters : ChartParams
  insight : String
deriving DecidableEq

/-- `numeric_cols = [col for col, dtype in dtypes.items() if 'int' in dtype or
'float' in dtype]`. -/
def numericColsOf (dtypes : List (String × String)) : List String :=
  (dtypes.filter (fun q => isNumericDtype q.2)).map Prod.fst

/-- `categorical_cols = [col for col, dtype in dtypes.items() if 'object' in
dtype or 'category' in dtype]`. -/
def categoricalColsOf (dtypes : List (String × String)) : List String :=
  (dtypes.filter (fun q => isCategoricalDtype q.2)).map Prod.fst

/-- Rule 1: bar of first numeric summed by first categorical. -/
def rule1 (categorical_cols numeric_cols : List String) : List Suggestion :=
  match categorical_cols, numeric_cols with
    | cat_col :: _, num_col :: _ =>
      [{ title := "Distribución de " ++ num_col ++ " por " ++ cat_col
         chart_type := "bar"
         parameters := { x_axis := some cat_col, y_axis := some num_col,
                         group_by := some cat_col, aggregate := some "sum" }
         insight := "Este gráfico muestra cómo se distribuye " ++ num_col ++
           " entre las diferentes categorías de " ++ cat_col ++
           ". Útil para identificar patrones y comparar valores entre grupos." }]
    | _, _ => []

/-- Rule 2: line of the first two numeric columns. -/
def rule2 (numeric_cols : List String) : List Suggestion :=
  match numeric_cols with
    | n0 :: n1 :: _ =>
      [{ title := "Tendencia de " ++ n0 ++ " vs " ++ n1
         chart_type := "line"
         parameters := { x_axis := some n0, y_axis := some n1 }
         insight := "Visualiza la relación y tendencia entre " ++ n0 ++ " y " ++ n1 ++
           ". Ideal para identificar correlaciones y patrones temporales o secuenciales." }]
    | _ => []

/-- Rule 3: pie of first numeric summed by first categorical. -/
def rule3 (categorical_cols numeric_cols : List String) : List Suggestion :=
  match categorical_cols, numeric_cols with
    | cat_col :: _, num_col :: _ =>
      [{ title := "Proporción de " ++ num_col ++ " por " ++ cat_col
         chart_type := "pie"
         parameters := { category := some cat_col, value := some num_col,
                         group_by := some cat_col, aggregate := some "sum" }
         insight := "Este gráfico circular muestra la proporción relativa de " ++ num_col ++
           " para cada categoría de " ++ cat_col ++
           ". Perfecto para entender la distribución porcentual." }]
    | _, _ => []

/-- Rule 4: scatter of the first two numeric columns. -/
def rule4 (numeric_cols : List String) : List Suggestion :=
  match numeric_cols with
    | n0 :: n1 :: _ =>
      [{ title := "Relación entre " ++ n0 ++ " y " ++ n1
         chart_type := "scatter"
         parameters := { x_axis := some n0, y_axis := some n1 }
         insight := "Un gráfico de dispersión que revela la relación entre " ++ n0 ++
           " y " ++ n1 ++ ". Útil para detectar correlaciones, outliers y patrones no lineales." }]
    | _ => []

/-- Rule 5: bar of the first numeric column against the synthetic `"index"`
x-axis. -/
def rule5 (numeric_cols : List String) : List Suggestion :=
  match numeric_cols with
  | n0 :: _ =>
    [{ title := "Distribución de " ++ n0
       chart_type := "bar"
       parameters := { x_axis := some "index", y_axis := some n0 }
       insight := "Visualiza la distribución de valores de " ++ n0 ++
         " en el dataset. Ayuda a identificar valores atípicos y entender la dispersión de los datos." }]
  | _ => []

/-- Rules for profiles with categorical columns and no numeric column:
frequency bar, cross-category bar, frequency pie (all with the synthetic
`"count"` axis). -/
def rule6 (numeric_cols categorical_cols : List String) : List Suggestion :=
  match numeric_cols, categorical_cols with
  | [], c0 :: rest =>
      let s6a : List Suggestion :=
        [{ title := "Frecuencia de " ++ c0
           chart_type := "bar"
           parameters := { x_axis := some c0, y_axis := some "count",
                           group_by := some c0, aggregate := some "count" }
           insight := "Este gráfico muestra la frecuencia de cada valor único en " ++ c0 ++
             ". Útil para identificar los valores más comunes y la distribución de categorías." }]
      let s6b : List Suggestion :=
        match rest with
        | c1 :: _ =>
          [{ title := "Distribución de " ++ c0 ++ " por " ++ c1
             chart_type := "bar"
             parameters := { x_axis := some c0, y_axis := some "count",
                             group_by := some c0, aggregate := some "count",
                             category := some c1 }
             insight := "Este gráfico muestra cómo se distribuyen los valores de " ++ c0 ++
               " en relación con " ++ c1 ++
               ". Ayuda a identificar patrones y relaciones entre categorías." }]
        | [] => []
      let s6c : List Suggestion :=
        [{ title := "Proporción de " ++ c0
           chart_type := "pie"
           parameters := { category := some c0, value := some "count",
                           group_by := some c0, aggregate := some "count" }
           insight := "Este gráfico circular muestra la proporción relativa de cada valor en " ++
             c0 ++ ". Perfecto para visualizar la distribución porcentual de categorías." }]
      s6a ++ s6b ++ s6c
  | _, _ => []

/-- `analyze_dataframe_mock`: the deterministic rule ladder, capped at 5
suggestions.  (The source also binds `columns = schema.get('columns', [])`,
which it never uses; the `summary` argument is likewise never read.) -/
def analyze_dataframe_mock (schema : Schema) (summary : Summary) : List Suggestion :=
  let numeric_cols := numericColsOf schema.dtypes
  let categorical_cols := categoricalColsOf schema.dtypes
  (rule1 categorical_cols numeric_cols ++ rule2 numeric_cols ++
    rule3 categorical_cols numeric_cols ++ rule4 numeric_cols ++
    rule5 numeric_cols ++ rule6 numeric_cols categorical_cols).take 5

/-- Outcome of `json.loads` on the model response: either a JSON array of
suggestion-shaped objects, or any non-array JSON value. -/
inductive JsonVal
  | arr (xs : List Suggestion)
  | nonList
deriving DecidableEq

/-- The external collaborators of `analyze_dataframe_claude`: library import,
credential, client construction, the remote completion call, and `json.loads`. -/
structure ClaudeEnv where
  anthropic_available : Bool
  api_key : Option String
  client_init : Except String Unit
  remote_call : Except String String
  json_parse : String → Except String JsonVal

/-- The fence-stripping applied to the model response before parsing:
strip, drop a leading triple-backtick json marker, drop a leading bare
triple-backtick marker, drop a trailing triple-backtick marker, strip. -/
def stripFences (raw : String) : String :=
  let content := pyStrip raw
  let content := if strStartsWith content "```json" then strDrop content 7 else content
  let content := if strStartsWith content "```" then strDrop content 3 else content
  let content := if strEndsWith content "```" then strDropRight content 3 else content
  pyStrip content

/-- `analyze_dataframe_claude`: every failure of the import / credential /
client / call / parse chain degrades to the rule-based generator, but a
response that parses to a non-list returns the empty list. -/
def analyze_dataframe_claude (env : ClaudeEnv) (schema : Schema) (summary : Summary) :
    List Suggestion :=
  if !env.anthropic_available then analyze_dataframe_mock schema summary
  else
    match env.api_key with
    | none => analyze_dataframe_mock schema summary
    | some api_key =>
      if api_key.data.isEmpty then analyze_dataframe_mock schema summary
      else
        match env.client_init with
        | .error _ => analyze_dataframe_mock schema summary
        | .ok _ =>
          match env.remote_call with
          | .error _ => analyze_dataframe_mock schema summary
          | .ok raw =>
            match env.json_parse (stripFences raw) with
            | .error _ => analyze_dataframe_mock schema summary
            | .ok (.arr xs) => xs
            | .ok .nonList => []

/-- `analyze_dataframe`: strategy selection. -/
def analyze_dataframe (env : ClaudeEnv) (schema : Schema) (summary : Summary)
    (use_claude : Bool) : List Suggestion :=
  if use_claude then analyze_dataframe_claude env schema summary
  else analyze_dataframe_mock schema summary

/-- The column names mentioned by a parameter set. -/
def paramCols (p : ChartParams) : List String :=
  [p.x_axis, p.y_axis, p.category, p.value, p.group_by].filterMap id

/-! ## Concrete data used by witnesses and counterexamples -/

/-- Scenario A: `region` categorical ("North","South","North"),
`sales` numeric (10, 20, 30). -/
def dfA : DataFrame :=
  ⟨[⟨"region", "object", [.vStr "North", .vStr "South", .vStr "North"]⟩,
    ⟨"sales", "int64", [.int 10, .int 20, .int 30]⟩]⟩

def schemaA : Schema := ⟨["region", "sales"], [("region", "object"), ("sales", "int64")]⟩

/-- A profile with a single numeric column. -/
def schemaN : Schema := ⟨["n"], [("n", "int64")]⟩

/-- A dataset whose groups appear in non-sorted first-seen order. -/
def dfU : DataFrame :=
  ⟨[⟨"region", "object", [.vStr "South", .vStr "North"]⟩,
    ⟨"sales", "int64", [.int 1, .int 2]⟩]⟩

/-- A dataset with rows and a categorical column but no numeric column. -/
def dfCatOnly : DataFrame := ⟨[⟨"c", "object", [.vStr "a"]⟩]⟩

/-- A one-row dataset with two numeric columns. -/
def dfN2 : DataFrame := ⟨[⟨"a", "int64", [.int 7]⟩, ⟨"b", "int64", [.int 8]⟩]⟩

/-- Parameters naming `dfN2`'s two columns. -/
def pN2 : ChartParams := { x_axis := some "a", y_axis := some "b" }

/-- An environment in which the remote call succeeds and the response parses
to a non-list JSON value. -/
def envNonList : ClaudeEnv := ⟨true, some "k", .ok (), .ok "{}", fun _ => .ok .nonList⟩

/-- Two schemas with extensionally equal but differently ordered dtype
dictionaries. -/
def schemaAB : Schema := ⟨["a", "b"], [("a", "int64"), ("b", "int64")]⟩

def schemaBA : Schema := ⟨["a", "b"], [("b", "int64"), ("a", "int64")]⟩

/-- Same dtypes as `schemaAB` but a different column list (and used with a
different summary), for the dtype-dependence witness. -/
def schemaABcols : Schema := ⟨["zzz"], [("a", "int64"), ("b", "int64")]⟩

/-! ## Generic helper lemmas -/

theorem except_bind_ok {α β : Type} {e : Except String α} {f : α → Except String β} {b : β} :
    (e >>= f) = .ok b ↔ ∃ a, e = .ok a ∧ f a = .ok b := by
  cases e with
  | error m => simp [Bind.bind, Except.bind]
  | ok a => simp [Bind.bind, Except.bind]

theorem truthy_none : truthy none = false := rfl

theorem truthy_some_of_ne {s : String} (h : s ≠ "") : truthy (some s) = true := by
  cases s with
  | mk l =>
    cases l with
    | nil => exact absurd rfl h
    | cons c cs => rfl

/-! ## Claim theorems -/

/-- C1: `get_chart_data` never raises: for every dataset, chart kind, and
parameter set, the call returns normally; when the internal computation fails
with message `m`, the result is `{data := [], error := some m}`, and otherwise
the error field is `none` and the computed data/labels are returned. -/
theorem get_chart_data_total (df : DataFrame) (ct : String) (p : ChartParams) :
    (∃ r, chartWithFallback df ct p = .ok r ∧
      get_chart_data df ct p = ⟨r.1, r.2, none⟩) ∨
    (∃ m, chartWithFallback df ct p = .error m ∧
      get_chart_data df ct p = ⟨[], none, some m⟩) := by
  unfold get_chart_data
  cases h : chartWithFallback df ct p with
  | ok r => exact Or.inl ⟨r, rfl, rfl⟩
  | error m => exact Or.inr ⟨m, rfl, rfl⟩

/-- C2 counterexample: with the remote service reached and the response
parsing to a non-list, `analyze_dataframe_claude` returns the empty list even
though the rule-based generator returns a non-empty list for the same profile
— so it does not return the rule-based suggestions as the claim states. -/
theorem claude_nonlist_cex :
    analyze_dataframe_claude envNonList schemaN [] = [] ∧
    analyze_dataframe_mock schemaN [] ≠ [] := by decide

/-- C2 amended: whenever the model-backed path reaches the remote service and
the response, after fence-stripping, parses to a value that is not a list, the
operation returns the empty list (not the rule-based suggestions, and not an
error). -/
theorem claude_nonlist_returns_empty (env : ClaudeEnv) (schema : Schema) (summary : Summary)
    (c : String)
    (h1 : env.anthropic_available = true)
    (h2 : truthy env.api_key = true)
    (h3 : env.client_init = .ok ())
    (h4 : env.remote_call = .ok c)
    (h5 : env.json_parse (stripFences c) = .ok .nonList) :
    analyze_dataframe_claude env schema summary = [] := by
  unfold analyze_dataframe_claude
  rw [h1]
  cases hk : env.api_key with
  | none => rw [hk] at h2; simp [truthy] at h2
  | some key =>
    rw [hk] at h2
    simp only [truthy, Bool.not_eq_true'] at h2
    simp [h2, h3, h4, h5]

/-- C2 witness for the amended claim at a concrete environment. -/
theorem claude_nonlist_returns_empty_witness :
    analyze_dataframe_claude envNonList schemaA [] = [] :=
  claude_nonlist_returns_empty envNonList schemaA [] "{}" rfl rfl rfl rfl rfl

/-- C3 counterexample: a dataset with one row and one categorical column has
no numeric columns, yet its summary-statistics mapping is non-empty (pandas
`describe` falls back to describing the object columns), contradicting the
claim that the mapping is empty whenever there are no numeric columns. -/
theorem summary_stats_cex :
    dfCatOnly.nRows = 1 ∧ dfCatOnly.numericCols = [] ∧
    (process_file_metadata dfCatOnly).summary_stats ≠ [] := by decide

/-- C3 amended: profiling is total (`process_file_metadata` is a function),
and the summary-statistics mapping is empty exactly when the dataset has no
rows or no columns; when rows exist but no column is numeric, `describe`
covers the non-numeric columns instead, so the mapping is non-empty. -/
theorem summary_stats_empty_iff (df : DataFrame) :
    (process_file_metadata df).summary_stats = [] ↔ (df.nRows = 0 ∨ df.cols = []) := by
  show summaryStats df = [] ↔ _
  unfold summaryStats dfEmpty
  by_cases h : (df.nRows = 0 ∨ df.cols = [])
  · have hb : (decide (df.nRows = 0) || decide (df.cols.length = 0)) = true := by
      rcases h with h | h <;> simp [h]
    simp [hb, h]
  · push_neg at h
    obtain ⟨h1, h2⟩ := h
    have hb : (decide (df.nRows = 0) || decide (df.cols.length = 0)) = false := by
      simp [h1, List.length_eq_zero, h2]
    rw [hb]
    simp only [Bool.false_eq_true, if_false]
    constructor
    · intro he
      exfalso
      cases hnc : df.numericCols with
      | nil =>
        rw [hnc] at he
        rcases List.map_eq_nil_iff.mp he with hcols
        exact h2 hcols
      | cons c cs =>
        rw [hnc] at he
        simp at he
    · intro hor
      exact absurd hor (by tauto)

/-- C5: the rule-based generator is deterministic (equal profile and summary
inputs give equal output) and its output never exceeds 5 suggestions. -/
theorem mock_deterministic_capped (schema : Schema) (summary : Summary) :
    (analyze_dataframe_mock schema summary).length ≤ 5 ∧
    ∀ schema2 summary2, schema2 = schema → summary2 = summary →
      analyze_dataframe_mock schema2 summary2 = analyze_dataframe_mock schema summary := by
  constructor
  · unfold analyze_dataframe_mock
    exact List.length_take_le 5 _
  · intro schema2 summary2 h1 h2
    rw [h1, h2]

/-- C5 witness at a concrete profile. -/
theorem mock_deterministic_capped_witness :
    (analyze_dataframe_mock schemaA []).length ≤ 5 ∧
    analyze_dataframe_mock schemaA [] = analyze_dataframe_mock schemaA [] :=
  ⟨(mock_deterministic_capped schemaA []).1,
   (mock_deterministic_capped schemaA []).2 schemaA [] rfl rfl⟩

/-- C6: on Scenario A's dataset the rule-based output contains a bar
suggestion with `group_by = "region"`, `y_axis = "sales"`,
`aggregate = "sum"`, and aggregating it yields exactly
`[{name: "North", value: 40}, {name: "South", value: 20}]` with labels
`["North", "South"]`; this order coincides with the first-seen group order of
the `region` column. -/
theorem scenario_a_bar :
    (∃ s ∈ analyze_dataframe_mock schemaA [], s.chart_type = "bar" ∧
      s.parameters.group_by = some "region" ∧
      s.parameters.y_axis = some "sales" ∧
      s.parameters.aggregate = some "sum" ∧
      get_chart_data dfA "bar" s.parameters =
        ⟨[.nv "North" (PRat.ofInt 40), .nv "South" (PRat.ofInt 20)],
         some ["North", "South"], none⟩) ∧
    firstSeen [.vStr "North", .vStr "South", .vStr "North"] =
      [.vStr "North", .vStr "South"] := by decide

/-- C7: a pie request with `category`/`value` set, no `group_by` and default
aggregate returns exactly the same result (points, labels, error) as a bar
request grouped by that category with aggregate `sum` over the same value
column. -/
theorem pie_eq_grouped_bar_sum (df : DataFrame) (cat val x : String)
    (hc : cat ≠ "") (hv : val ≠ "") (hx : x ≠ "") :
    get_chart_data df "pie"
      { category := some cat, value := some val } =
    get_chart_data df "bar"
      { x_axis := some x, y_axis := some val, group_by := some cat,
        aggregate := some "sum" } := by
  have hdisp :
      chartDispatch df "pie" { category := some cat, value := some val } =
      chartDispatch df "bar"
        { x_axis := some x, y_axis := some val, group_by := some cat,
          aggregate := some "sum" } := by
    have hbagg : barAgg "sum" = vSum := by
      funext vs; simp [barAgg]
    simp [chartDispatch, truthy_some_of_ne hc, truthy_some_of_ne hv,
      truthy_some_of_ne hx, truthy_none, hbagg]
  unfold get_chart_data chartWithFallback
  rw [hdisp]

/-- C7 witness on Scenario A's dataset. -/
theorem pie_eq_grouped_bar_sum_witness :
    get_chart_data dfA "pie" { category := some "region", value := some "sales" } =
    get_chart_data dfA "bar"
      { x_axis := some "region", y_axis := some "sales", group_by := some "region",
        aggregate := some "sum" } :=
  pie_eq_grouped_bar_sum dfA "region" "sales" "region"
    (by decide) (by decide) (by decide)

/-- C10 counterexample: two schemas whose dtype dictionaries are equal as
mappings (a permutation of one another, with duplicate-free keys) but listed
in a different order produce different rule-based suggestion lists. -/
theorem mock_dtypes_order_cex :
    schemaAB.dtypes.Perm schemaBA.dtypes ∧
    (schemaAB.dtypes.map Prod.fst).Nodup ∧
    schemaAB.columns = schemaBA.columns ∧
    analyze_dataframe_mock schemaAB [] ≠ analyze_dataframe_mock schemaBA [] := by decide

/-- C10 amended: the rule-based generator's output depends only on the
profile's dtypes mapping taken as an ordered sequence of column/type pairs:
equal ordered dtype sequences give identical output, regardless of the
columns list and of the summary statistics. -/
theorem mock_depends_only_on_dtypes (s1 s2 : Schema) (su1 su2 : Summary)
    (h : s1.dtypes = s2.dtypes) :
    analyze_dataframe_mock s1 su1 = analyze_dataframe_mock s2 su2 := by
  unfold analyze_dataframe_mock
  rw [h]

/-- C10 witness: schemas sharing dtypes but with different column lists and
different summaries produce identical output. -/
theorem mock_depends_only_on_dtypes_witness :
    analyze_dataframe_mock schemaAB [] =
    analyze_dataframe_mock schemaABcols [("a", .objectStats 1 1 none 1)] :=
  mock_depends_only_on_dtypes schemaAB schemaABcols [] [("a", .objectStats 1 1 none 1)] rfl

/-! ## C4: columns referenced by rule-based suggestions -/

theorem mem_keys_of_mem_filtered (dtypes : List (String × String))
    (pr : String × String → Bool) :
    ∀ c ∈ (dtypes.filter pr).map Prod.fst, c ∈ dtypes.map Prod.fst := by
  intro c hc
  rcases List.mem_map.mp hc with ⟨q, hq, rfl⟩
  exact List.mem_map_of_mem _ (List.mem_of_mem_filter hq)

theorem rule1_param_cols (cc nc : List String) :
    ∀ s ∈ rule1 cc nc, ∀ c ∈ paramCols s.parameters, c ∈ cc ∨ c ∈ nc := by
  intro s hs c hc
  rcases cc with _ | ⟨c0, cc'⟩ <;> rcases nc with _ | ⟨n0, nc'⟩ <;>
    simp [rule1] at hs
  subst hs
  simp [paramCols] at hc
  rcases hc with rfl | rfl | rfl
  · exact Or.inl (List.mem_cons_self _ _)
  · exact Or.inr (List.mem_cons_self _ _)
  · exact Or.inl (List.mem_cons_self _ _)

theorem rule2_param_cols (nc : List String) :
    ∀ s ∈ rule2 nc, ∀ c ∈ paramCols s.parameters, c ∈ nc := by
  intro s hs c hc
  rcases nc with _ | ⟨n0, _ | ⟨n1, nc'⟩⟩ <;> simp [rule2] at hs
  subst hs
  simp [paramCols] at hc
  rcases hc with rfl | rfl
  · exact List.mem_cons_self _ _
  · exact List.mem_cons_of_mem _ (List.mem_cons_self _ _)

theorem rule3_param_cols (cc nc : List String) :
    ∀ s ∈ rule3 cc nc, ∀ c ∈ paramCols s.parameters, c ∈ cc ∨ c ∈ nc := by
  intro s hs c hc
  rcases cc with _ | ⟨c0, cc'⟩ <;> rcases nc with _ | ⟨n0, nc'⟩ <;>
    simp [rule3] at hs
  subst hs
  simp [paramCols] at hc
  rcases hc with rfl | rfl | rfl
  · exact Or.inl (List.mem_cons_self _ _)
  · exact Or.inr (List.mem_cons_self _ _)
  · exact Or.inl (List.mem_cons_self _ _)

theorem rule4_param_cols (nc : List String) :
    ∀ s ∈ rule4 nc, ∀ c ∈ paramCols s.parameters, c ∈ nc := by
  intro s hs c hc
  rcases nc with _ | ⟨n0, _ | ⟨n1, nc'⟩⟩ <;> simp [rule4] at hs
  subst hs
  simp [paramCols] at hc
  rcases hc with rfl | rfl
  · exact List.mem_cons_self _ _
  · exact List.mem_cons_of_mem _ (List.mem_cons_self _ _)

theorem rule5_param_cols (nc : List String) :
    ∀ s ∈ rule5 nc, ∀ c ∈ paramCols s.parameters, c ∈ nc ∨ c = "index" := by
  intro s hs c hc
  rcases nc with _ | ⟨n0, nc'⟩ <;> simp [rule5] at hs
  subst hs
  simp [paramCols] at hc
  rcases hc with rfl | rfl
  · exact Or.inr rfl
  · exact Or.inl (List.mem_cons_self _ _)

theorem rule6_param_cols (nc cc : List String) :
    ∀ s ∈ rule6 nc cc, ∀ c ∈ paramCols s.parameters, c ∈ cc ∨ c = "count" := by
  intro s hs c hc
  rcases nc with _ | ⟨n0, nc'⟩ <;> rcases cc with _ | ⟨c0, _ | ⟨c1, cc'⟩⟩ <;>
    simp [rule6] at hs
  · rcases hs with hs | hs <;> subst hs <;> simp [paramCols] at hc <;>
      rcases hc with rfl | rfl | rfl
    · exact Or.inl (List.mem_cons_self _ _)
    · exact Or.inr rfl
    · exact Or.inl (List.mem_cons_self _ _)
    · exact Or.inl (List.mem_cons_self _ _)
    · exact Or.inr rfl
    · exact Or.inl (List.mem_cons_self _ _)
  · rcases hs with hs | hs | hs <;> subst hs <;> simp [paramCols] at hc
    · rcases hc with rfl | rfl | rfl
      · exact Or.inl (List.mem_cons_self _ _)
      · exact Or.inr rfl
      · exact Or.inl (List.mem_cons_self _ _)
    · rcases hc with rfl | rfl | rfl | rfl
      · exact Or.inl (List.mem_cons_self _ _)
      · exact Or.inr rfl
      · exact Or.inl (List.mem_cons_of_mem _ (List.mem_cons_self _ _))
      · exact Or.inl (List.mem_cons_self _ _)
    · rcases hc with rfl | rfl | rfl
      · exact Or.inl (List.mem_cons_self _ _)
      · exact Or.inr rfl
      · exact Or.inl (List.mem_cons_self _ _)

/-- C4 counterexample: for the one-numeric-column profile, the rule-based
output contains a suggestion (rule 5) whose `x_axis` is the synthetic name
`"index"`, which is not a member of the profile's column list. -/
theorem mock_param_not_in_columns_cex :
    ∃ s ∈ analyze_dataframe_mock schemaN [], ∃ c ∈ paramCols s.parameters,
      c ∉ schemaN.columns := by decide

/-- C4 amended: every column name placed in a parameter field of a rule-based
suggestion is either a key of the profile's dtypes mapping or one of the two
synthetic axis names `"index"` (rule 5) and `"count"` (the categorical-only
rules). -/
theorem mock_param_cols_in_dtypes (schema : Schema) (summary : Summary) :
    ∀ s ∈ analyze_dataframe_mock schema summary, ∀ c ∈ paramCols s.parameters,
      c ∈ schema.dtypes.map Prod.fst ∨ c = "index" ∨ c = "count" := by
  intro s hs c hc
  have hs' : s ∈ rule1 (categoricalColsOf schema.dtypes) (numericColsOf schema.dtypes) ++
      rule2 (numericColsOf schema.dtypes) ++
      rule3 (categoricalColsOf schema.dtypes) (numericColsOf schema.dtypes) ++
      rule4 (numericColsOf schema.dtypes) ++ rule5 (numericColsOf schema.dtypes) ++
      rule6 (numericColsOf schema.dtypes) (categoricalColsOf schema.dtypes) :=
    List.take_subset 5 _ hs
  have hnum : ∀ c ∈ numericColsOf schema.dtypes, c ∈ schema.dtypes.map Prod.fst :=
    mem_keys_of_mem_filtered _ _
  have hcat : ∀ c ∈ categoricalColsOf schema.dtypes, c ∈ schema.dtypes.map Prod.fst :=
    mem_keys_of_mem_filtered _ _
  simp only [List.append_assoc, List.mem_append] at hs'
  rcases hs' with h | h | h | h | h | h
  · rcases rule1_param_cols _ _ s h c hc with h' | h'
    · exact Or.inl (hcat _ h')
    · exact Or.inl (hnum _ h')
  · exact Or.inl (hnum _ (rule2_param_cols _ s h c hc))
  · rcases rule3_param_cols _ _ s h c hc with h' | h'
    · exact Or.inl (hcat _ h')
    · exact Or.inl (hnum _ h')
  · exact Or.inl (hnum _ (rule4_param_cols _ s h c hc))
  · rcases rule5_param_cols _ s h c hc with h' | h'
    · exact Or.inl (hnum _ h')
    · exact Or.inr (Or.inl h')
  · rcases rule6_param_cols _ _ s h c hc with h' | h'
    · exact Or.inl (hcat _ h')
    · exact Or.inr (Or.inr h')

/-- C4 amended witness: in Scenario A's profile, the first suggestion's
`x_axis` column "region" is a dtypes key. -/
theorem mock_param_cols_in_dtypes_witness :
    "region" ∈ schemaA.dtypes.map Prod.fst ∨ "region" = "index" ∨ "region" = "count" :=
  mock_param_cols_in_dtypes schemaA []
    ((analyze_dataframe_mock schemaA []).head (by decide))
    (by decide) "region" (by decide)

/-! ## C9: grouped aggregation emits keys in ascending sorted order -/

theorem mapM_keys_eq {f : Value → Except String (Value × Value)}
    (hf : ∀ k q, f k = .ok q → q.1 = k) :
    ∀ (l : List Value) (pairs : List (Value × Value)),
      l.mapM f = .ok pairs → pairs.map Prod.fst = l := by
  intro l
  induction l with
  | nil =>
    intro pairs h
    simp only [List.mapM_nil] at h
    cases h
    rfl
  | cons x xs ih =>
    intro pairs h
    simp only [List.mapM_cons] at h
    rcases except_bind_ok.mp h with ⟨q, hq, h2⟩
    rcases except_bind_ok.mp h2 with ⟨qs, hqs, h3⟩
    cases h3
    simp [hf x q hq, ih qs hqs]

theorem groupedAgg_unfold {df : DataFrame} {gb target : String}
    {aggF : List Value → Except String Value} {pairs : List (Value × Value)}
    (h : groupedAgg df gb target aggF = .ok pairs) :
    ∃ ks ts, df.getCol gb = .ok ks ∧ df.getCol target = .ok ts ∧
      (sortKeys (firstSeen ks)).mapM (fun k => do
        let v ← aggF (groupVals ks ts k)
        pure (k, v)) = .ok pairs := by
  unfold groupedAgg at h
  rcases except_bind_ok.mp h with ⟨ks, hks, h2⟩
  rcases except_bind_ok.mp h2 with ⟨ts, hts, h3⟩
  exact ⟨ks, ts, hks, hts, h3⟩

/-- C9: whenever a grouped aggregation succeeds, the emitted key sequence is
the ascending sort of the distinct group keys, hence sorted — and it equals
the first-seen key order exactly when that order happens to be sorted
already. -/
theorem grouped_keys_sorted (df : DataFrame) (gb target : String)
    (aggF : List Value → Except String Value) (pairs : List (Value × Value))
    (ks : List Value)
    (hks : df.getCol gb = .ok ks)
    (h : groupedAgg df gb target aggF = .ok pairs) :
    pairs.map Prod.fst = sortKeys (firstSeen ks) ∧
    (pairs.map Prod.fst).Sorted Value.le ∧
    (pairs.map Prod.fst = firstSeen ks ↔ (firstSeen ks).Sorted Value.le) := by
  rcases groupedAgg_unfold h with ⟨ks', ts, hks', _, hmap⟩
  rw [hks] at hks'
  cases hks'
  have hkeys : pairs.map Prod.fst = sortKeys (firstSeen ks) := by
    refine mapM_keys_eq ?_ _ _ hmap
    intro k q hq
    rcases except_bind_ok.mp hq with ⟨v, _, hpure⟩
    cases hpure
    rfl
  refine ⟨hkeys, ?_, ?_⟩
  · rw [hkeys]
    exact List.sorted_insertionSort Value.le (firstSeen ks)
  · rw [hkeys]
    constructor
    · intro he
      rw [← he]
      exact List.sorted_insertionSort Value.le (firstSeen ks)
    · intro hs
      exact List.Sorted.insertionSort_eq hs

/-- C9 witness: on a dataset whose first-seen group order is ["South",
"North"], the grouped bar aggregation emits ["North", "South"]: the sorted
order, which differs from first-seen order exactly because the latter is not
sorted. -/
theorem grouped_keys_sorted_witness :
    ([(Value.vStr "North", Value.int 2), (Value.vStr "South", Value.int 1)].map Prod.fst =
      sortKeys (firstSeen [Value.vStr "South", Value.vStr "North"])) ∧
    (([(Value.vStr "North", Value.int 2),
       (Value.vStr "South", Value.int 1)].map Prod.fst).Sorted Value.le) ∧
    ([(Value.vStr "North", Value.int 2), (Value.vStr "South", Value.int 1)].map Prod.fst =
        firstSeen [Value.vStr "South", Value.vStr "North"] ↔
      (firstSeen [Value.vStr "South", Value.vStr "North"]).Sorted Value.le) :=
  grouped_keys_sorted dfU "region" "sales" vSum
    [(Value.vStr "North", Value.int 2), (Value.vStr "South", Value.int 1)]
    [Value.vStr "South", Value.vStr "North"] rfl rfl

/-! ## C8: row caps and prefix-of-rows behaviour -/

theorem mapM_ok_length {α β : Type} {f : α → Except String β} :
    ∀ {l : List α} {l' : List β}, l.mapM f = .ok l' → l'.length = l.length := by
  intro l
  induction l with
  | nil =>
    intro l' h
    simp only [List.mapM_nil] at h
    cases h
    rfl
  | cons x xs ih =>
    intro l' h
    simp only [List.mapM_cons] at h
    rcases except_bind_ok.mp h with ⟨y, _, h2⟩
    rcases except_bind_ok.mp h2 with ⟨ys, hys, h3⟩
    cases h3
    simp [ih hys]

theorem mapM_ok_take {α β : Type} {f : α → Except String β} :
    ∀ (k : Nat) {l : List α} {l' : List β}, l.mapM f = .ok l' →
      (l.take k).mapM f = .ok (l'.take k) := by
  intro k
  induction k with
  | zero =>
    intro l l' _
    simp only [List.take_zero]
    rfl
  | succ k ih =>
    intro l l' h
    cases l with
    | nil =>
      simp only [List.mapM_nil] at h
      cases h
      simp only [List.take_nil]
      rfl
    | cons x xs =>
      simp only [List.mapM_cons] at h
      rcases except_bind_ok.mp h with ⟨y, hy, h2⟩
      rcases except_bind_ok.mp h2 with ⟨ys, hys, h3⟩
      cases h3
      rw [List.take_succ_cons, List.take_succ_cons, List.mapM_cons]
      exact except_bind_ok.mpr ⟨y, hy, except_bind_ok.mpr ⟨ys.take k, ih hys, rfl⟩⟩

theorem zip_take_take {α β : Type} (xs : List α) (ys : List β) (k : Nat) :
    ((xs.zip ys).take k) = (xs.take k).zip (ys.take k) := by
  rw [List.zip_eq_zipWith, List.take_zipWith, ← List.zip_eq_zipWith]

theorem seriesNV_take {xs ys : List Value} {pts : List Point} (k : Nat)
    (h : seriesNV xs ys = .ok pts) :
    seriesNV (xs.take k) (ys.take k) = .ok (pts.take k) := by
  unfold seriesNV at h ⊢
  rw [← zip_take_take]
  exact mapM_ok_take k h

theorem seriesXY_take {xs ys : List Value} {pts : List Point} (k : Nat)
    (h : seriesXY xs ys = .ok pts) :
    seriesXY (xs.take k) (ys.take k) = .ok (pts.take k) := by
  unfold seriesXY at h ⊢
  rw [← zip_take_take]
  exact mapM_ok_take k h

theorem seriesNV_ok_length {xs ys : List Value} {pts : List Point}
    (h : seriesNV xs ys = .ok pts) : pts.length = min xs.length ys.length := by
  unfold seriesNV at h
  rw [mapM_ok_length h, List.length_zip]

theorem seriesXY_ok_length {xs ys : List Value} {pts : List Point}
    (h : seriesXY xs ys = .ok pts) : pts.length = min xs.length ys.length := by
  unfold seriesXY at h
  rw [mapM_ok_length h, List.length_zip]

theorem fallbackSeries_ok_length {vs : List Value} {pts : List Point} {k : Nat}
    (h : fallbackSeries vs k = .ok pts) : pts.length ≤ k := by
  unfold fallbackSeries at h
  rw [mapM_ok_length h, List.length_zip, List.length_range]
  omega

theorem fallbackSeries_take {vs : List Value} {pts : List Point} (k : Nat)
    (hk : k ≤ vs.length) (h : fallbackSeries vs vs.length = .ok pts) :
    fallbackSeries vs k = .ok (pts.take k) := by
  unfold fallbackSeries at h ⊢
  rw [List.take_length] at h
  have he : (List.range k).zip (vs.take k) = ((List.range vs.length).zip vs).take k := by
    rw [zip_take_take, List.take_range, Nat.min_eq_left hk]
  rw [he]
  exact mapM_ok_take k h

theorem getCol_mem {df : DataFrame} {x : String} {vs : List Value}
    (h : df.getCol x = .ok vs) : ∃ c ∈ df.cols, c.values = vs := by
  unfold DataFrame.getCol at h
  cases hf : df.cols.find? (fun c => c.name == x) with
  | none => rw [hf] at h; cases h
  | some c =>
    rw [hf] at h
    cases h
    exact ⟨c, List.mem_of_find?_eq_some hf, rfl⟩

theorem getCol_length {df : DataFrame} (hwf : df.WF) {x : String} {vs : List Value}
    (h : df.getCol x = .ok vs) : vs.length = df.nRows := by
  rcases getCol_mem h with ⟨c, hc, rfl⟩
  exact hwf c hc

theorem numericCols_mem {df : DataFrame} {c : Column} (h : c ∈ df.numericCols) :
    c ∈ df.cols :=
  List.mem_of_mem_filter h

theorem get_chart_data_of_ok {df : DataFrame} {ct : String} {p : ChartParams}
    {r : List Point × Option (List String)} (h : chartWithFallback df ct p = .ok r) :
    get_chart_data df ct p = ⟨r.1, r.2, none⟩ := by
  unfold get_chart_data
  rw [h]

theorem get_chart_data_of_error {df : DataFrame} {ct : String} {p : ChartParams}
    {m : String} (h : chartWithFallback df ct p = .error m) :
    get_chart_data df ct p = ⟨[], none, some m⟩ := by
  unfold get_chart_data
  rw [h]

theorem withFallback_dispatch_error {df : DataFrame} {ct : String} {p : ChartParams}
    {m : String} (h : chartDispatch df ct p = .error m) :
    chartWithFallback df ct p = .error m := by
  unfold chartWithFallback
  rw [h]
  rfl

theorem withFallback_nonempty {df : DataFrame} {ct : String} {p : ChartParams}
    {r0 : List Point × Option (List String)} (h : chartDispatch df ct p = .ok r0)
    (hne : r0.1 ≠ []) : chartWithFallback df ct p = .ok r0 := by
  unfold chartWithFallback
  rw [h]
  have : r0.1.isEmpty = false := by
    cases hl : r0.1 with
    | nil => exact absurd hl hne
    | cons a l => rfl
  simp [Bind.bind, Except.bind, this]
  rfl

theorem withFallback_norows {df : DataFrame} {ct : String} {p : ChartParams}
    {r0 : List Point × Option (List String)} (h : chartDispatch df ct p = .ok r0)
    (hz : df.nRows = 0) : chartWithFallback df ct p = .ok r0 := by
  unfold chartWithFallback
  rw [h]
  simp [Bind.bind, Except.bind, hz]
  rfl

theorem withFallback_empty_small {df : DataFrame} {ct : String} {p : ChartParams}
    {r0 : List Point × Option (List String)} (h : chartDispatch df ct p = .ok r0)
    (he : r0.1 = []) (hpos : 0 < df.nRows)
    (hnc : df.numericCols = [] ∨ ∃ c0, df.numericCols = [c0]) :
    chartWithFallback df ct p = .ok r0 := by
  unfold chartWithFallback
  rw [h]
  rcases hnc with hnc | ⟨c0, hnc⟩ <;>
    · simp [Bind.bind, Except.bind, he, hpos, hnc]
      rfl

theorem withFallback_empty_two {df : DataFrame} {ct : String} {p : ChartParams}
    {r0 : List Point × Option (List String)} (h : chartDispatch df ct p = .ok r0)
    (he : r0.1 = []) (hpos : 0 < df.nRows)
    {c0 c1 : Column} {rest : List Column} (hnc : df.numericCols = c0 :: c1 :: rest) :
    chartWithFallback df ct p =
      (fallbackSeries c0.values (min df.nRows 50) >>= fun pts =>
        pure (pts, some ((List.range (min df.nRows 50)).map toString))) := by
  unfold chartWithFallback
  rw [h]
  simp [Bind.bind, Except.bind, he, hpos, hnc]

/-- Master bound: if every successful dispatch result is within `n ≥ 50`
points, so is the final data payload (the fallback contributes at most 50). -/
theorem data_length_le_of_dispatch (df : DataFrame) (ct : String) (p : ChartParams)
    (n : Nat) (h50 : 50 ≤ n)
    (hdisp : ∀ r0, chartDispatch df ct p = .ok r0 → r0.1.length ≤ n) :
    (get_chart_data df ct p).data.length ≤ n := by
  cases hd : chartDispatch df ct p with
  | error m =>
    rw [get_chart_data_of_error (withFallback_dispatch_error hd)]
    simp
  | ok r0 =>
    by_cases he : r0.1 = []
    · by_cases hz : df.nRows = 0
      · rw [get_chart_data_of_ok (withFallback_norows hd hz)]
        simp [he]
      · have hpos : 0 < df.nRows := Nat.pos_of_ne_zero hz
        cases hnc : df.numericCols with
        | nil =>
          rw [get_chart_data_of_ok (withFallback_empty_small hd he hpos (Or.inl hnc))]
          simp [he]
        | cons c0 tail =>
          cases tail with
          | nil =>
            rw [get_chart_data_of_ok
              (withFallback_empty_small hd he hpos (Or.inr ⟨c0, hnc⟩))]
            simp [he]
          | cons c1 rest =>
            have hw := withFallback_empty_two hd he hpos hnc
            cases hfb : fallbackSeries c0.values (min df.nRows 50) with
            | error m =>
              rw [hfb] at hw
              rw [get_chart_data_of_error (by simpa [Bind.bind, Except.bind] using hw)]
              simp
            | ok fpts =>
              rw [hfb] at hw
              have hw' : chartWithFallback df ct p =
                  .ok (fpts, some ((List.range (min df.nRows 50)).map toString)) := by
                simpa [Bind.bind, Except.bind] using hw
              rw [get_chart_data_of_ok hw']
              show fpts.length ≤ n
              have := fallbackSeries_ok_length hfb
              have hk : min df.nRows 50 ≤ 50 := Nat.min_le_right _ _
              omega
    · rw [get_chart_data_of_ok (withFallback_nonempty hd he)]
      exact hdisp r0 hd

theorem dispatch_barline_ungrouped (df : DataFrame) (ct : String) (p : ChartParams)
    (hct : ct = "bar" ∨ ct = "line")
    (hx : truthy p.x_axis = true) (hy : truthy p.y_axis = true)
    (hgb : truthy p.group_by = false) :
    chartDispatch df ct p = (do
      let xs ← df.getCol (p.x_axis.getD "")
      let ys ← df.getCol (p.y_axis.getD "")
      let pts ← seriesNV (xs.take (min df.nRows 100)) (ys.take (min df.nRows 100))
      pure (pts, some ((xs.take (min df.nRows 100)).map pyStr))) := by
  rcases hct with rfl | rfl <;> simp [chartDispatch, hx, hy, hgb]

theorem dispatch_scatter (df : DataFrame) (p : ChartParams)
    (hx : truthy p.x_axis = true) (hy : truthy p.y_axis = true) :
    chartDispatch df "scatter" p = (do
      let xs ← df.getCol (p.x_axis.getD "")
      let ys ← df.getCol (p.y_axis.getD "")
      let pts ← seriesXY (xs.take (min df.nRows 500)) (ys.take (min df.nRows 500))
      pure (pts, none)) := by
  simp [chartDispatch, hx, hy]

/-- C8: (i) an ungrouped bar/line aggregation returns at most 100 points, and
on success exactly the first `min(rows, 100)` points of the full row series;
(ii) scatter returns at most 500 points, the prefix of the full row series;
(iii) whenever the dispatch produced no data and the numeric fallback runs, it
returns at most 50 points, the prefix of the full index/first-numeric-column
series.  All prefixes are in existing row order. -/
theorem row_caps (df : DataFrame) (p : ChartParams) (hwf : df.WF) :
    (∀ ct, (ct = "bar" ∨ ct = "line") → truthy p.x_axis = true →
      truthy p.y_axis = true → truthy p.group_by = false →
      (get_chart_data df ct p).data.length ≤ 100 ∧
      (∀ xs ys pts, df.getCol (p.x_axis.getD "") = .ok xs →
        df.getCol (p.y_axis.getD "") = .ok ys →
        seriesNV xs ys = .ok pts →
        (get_chart_data df ct p).data = pts.take (min df.nRows 100))) ∧
    (truthy p.x_axis = true → truthy p.y_axis = true →
      (get_chart_data df "scatter" p).data.length ≤ 500 ∧
      (∀ xs ys pts, df.getCol (p.x_axis.getD "") = .ok xs →
        df.getCol (p.y_axis.getD "") = .ok ys →
        seriesXY xs ys = .ok pts →
        (get_chart_data df "scatter" p).data = pts.take (min df.nRows 500))) ∧
    (∀ ct r0, chartDispatch df ct p = .ok r0 → r0.1 = [] →
      (get_chart_data df ct p).data.length ≤ 50 ∧
      (∀ c0 c1 rest pts, df.numericCols = c0 :: c1 :: rest →
        fallbackSeries c0.values c0.values.length = .ok pts →
        (get_chart_data df ct p).data = pts.take (min df.nRows 50))) := by
  refine ⟨?_, ?_, ?_⟩
  · intro ct hct hx hy hgb
    have hd := dispatch_barline_ungrouped df ct p hct hx hy hgb
    constructor
    · refine data_length_le_of_dispatch df ct p 100 (by omega) ?_
      intro r0 hr0
      rw [hd] at hr0
      rcases except_bind_ok.mp hr0 with ⟨xs, _, h2⟩
      rcases except_bind_ok.mp h2 with ⟨ys, _, h3⟩
      rcases except_bind_ok.mp h3 with ⟨pts, hpts, h4⟩
      cases h4
      show pts.length ≤ 100
      have := seriesNV_ok_length hpts
      simp only [List.length_take] at this
      omega
    · intro xs ys pts hxs hys hpts
      have hstep := seriesNV_take (min df.nRows 100) hpts
      have hdisp : chartDispatch df ct p =
          .ok (pts.take (min df.nRows 100),
               some ((xs.take (min df.nRows 100)).map pyStr)) := by
        rw [hd]
        simp only [Bind.bind, Except.bind, hxs, hys, hstep]
        rfl
      by_cases hz : df.nRows = 0
      · rw [get_chart_data_of_ok (withFallback_norows hdisp hz)]
      · have hpos : 0 < df.nRows := Nat.pos_of_ne_zero hz
        have hlen : pts.length = df.nRows := by
          rw [seriesNV_ok_length hpts, getCol_length hwf hxs, getCol_length hwf hys,
            Nat.min_self]
        have hne : pts.take (min df.nRows 100) ≠ [] := by
          intro hcon
          have := congrArg List.length hcon
          simp only [List.length_take, List.length_nil] at this
          omega
        rw [get_chart_data_of_ok (withFallback_nonempty hdisp hne)]
  · intro hx hy
    have hd := dispatch_scatter df p hx hy
    constructor
    · refine data_length_le_of_dispatch df "scatter" p 500 (by omega) ?_
      intro r0 hr0
      rw [hd] at hr0
      rcases except_bind_ok.mp hr0 with ⟨xs, _, h2⟩
      rcases except_bind_ok.mp h2 with ⟨ys, _, h3⟩
      rcases except_bind_ok.mp h3 with ⟨pts, hpts, h4⟩
      cases h4
      show pts.length ≤ 500
      have := seriesXY_ok_length hpts
      simp only [List.length_take] at this
      omega
    · intro xs ys pts hxs hys hpts
      have hstep := seriesXY_take (min df.nRows 500) hpts
      have hdisp : chartDispatch df "scatter" p =
          .ok (pts.take (min df.nRows 500), none) := by
        rw [hd]
        simp only [Bind.bind, Except.bind, hxs, hys, hstep]
        rfl
      by_cases hz : df.nRows = 0
      · rw [get_chart_data_of_ok (withFallback_norows hdisp hz)]
      · have hpos : 0 < df.nRows := Nat.pos_of_ne_zero hz
        have hlen : pts.length = df.nRows := by
          rw [seriesXY_ok_length hpts, getCol_length hwf hxs, getCol_length hwf hys,
            Nat.min_self]
        have hne : pts.take (min df.nRows 500) ≠ [] := by
          intro hcon
          have := congrArg List.length hcon
          simp only [List.length_take, List.length_nil] at this
          omega
        rw [get_chart_data_of_ok (withFallback_nonempty hdisp hne)]
  · intro ct r0 hr0 he
    constructor
    · refine data_length_le_of_dispatch df ct p 50 le_rfl ?_
      intro r0' hr0'
      rw [hr0] at hr0'
      cases hr0'
      simp [he]
    · intro c0 c1 rest pts hnc hpts
      by_cases hz : df.nRows = 0
      · rw [get_chart_data_of_ok (withFallback_norows hr0 hz)]
        simp [he, hz]
      · have hpos : 0 < df.nRows := Nat.pos_of_ne_zero hz
        have hc0mem : c0 ∈ df.cols := numericCols_mem (by rw [hnc]; exact List.mem_cons_self _ _)
        have hc0len : c0.values.length = df.nRows := hwf c0 hc0mem
        have hk : min df.nRows 50 ≤ c0.values.length := by
          rw [hc0len]
          exact Nat.min_le_left _ _
        have hstep := fallbackSeries_take (min df.nRows 50) hk hpts
        have hw := withFallback_empty_two hr0 he hpos hnc
        rw [hstep] at hw
        have hw' : chartWithFallback df ct p =
            .ok (pts.take (min df.nRows 50),
                 some ((List.range (min df.nRows 50)).map toString)) := by
          simpa [Bind.bind, Except.bind] using hw
        rw [get_chart_data_of_ok hw']

/-- C8 witness on a concrete one-row, two-numeric-column dataset: caps and
prefix equalities for the ungrouped bar path, the scatter path, and (via a
pie request with no parameters, which produces no data) the numeric fallback
path. -/
theorem row_caps_witness :
    ((get_chart_data dfN2 "bar" pN2).data.length ≤ 100 ∧
     (get_chart_data dfN2 "bar" pN2).data =
       [Point.nv "7" (PRat.ofInt 8)].take (min dfN2.nRows 100)) ∧
    ((get_chart_data dfN2 "scatter" pN2).data.length ≤ 500 ∧
     (get_chart_data dfN2 "scatter" pN2).data =
       [Point.xy (PRat.ofInt 7) (PRat.ofInt 8)].take (min dfN2.nRows 500)) ∧
    ((get_chart_data dfN2 "pie" pN2).data.length ≤ 50 ∧
     (get_chart_data dfN2 "pie" pN2).data =
       [Point.nv "0" (PRat.ofInt 7)].take (min dfN2.nRows 50)) := by
  have h := row_caps dfN2 pN2 (by decide)
  exact ⟨⟨(h.1 "bar" (Or.inl rfl) rfl rfl rfl).1,
          (h.1 "bar" (Or.inl rfl) rfl rfl rfl).2 [Value.int 7] [Value.int 8]
            [Point.nv "7" (PRat.ofInt 8)] rfl rfl rfl⟩,
         ⟨(h.2.1 rfl rfl).1,
          (h.2.1 rfl rfl).2 [Value.int 7] [Value.int 8]
            [Point.xy (PRat.ofInt 7) (PRat.ofInt 8)] rfl rfl rfl⟩,
         ⟨(h.2.2 "pie" ([], none) rfl rfl).1,
          (h.2.2 "pie" ([], none) rfl rfl).2 ⟨"a", "int64", [Value.int 7]⟩
            ⟨"b", "int64", [Value.int 8]⟩ [] [Point.nv "0" (PRat.ofInt 7)] rfl rfl⟩⟩

end BiDash
